import Mathlib

/-!
Verification of `Sources/CVersion/include/Version.h` from the container
repository.

The header defines four preprocessor string constants, each guarded by
`#ifndef` so that a build-time `-D` definition overrides the default:

  - `CZ_VERSION`            default `"latest"`
  - `GIT_COMMIT`            default `"unspecified"`
  - `RELEASE_VERSION`       default `"0.0.0"`
  - `BUILDER_SHIM_VERSION`  default `"0.0.0"`

and declares four accessors returning `const char*`:
`get_git_commit`, `get_release_version`,
`get_swift_containerization_version`, `get_container_builder_shim_version`.

We embed a build as a `BuildConfig` recording, for each macro, whether the
build system defined it (`some s`) or left it undefined (`none`); the
`#ifndef` fallback is exactly `Option.getD`.  A running process is a
`ProcessState` holding the configuration fixed at build time; accessor
calls are state-passing functions so that claims about sequences of calls,
mutation and interleavings can be stated.
-/

/-- A build of the program: for each of the four macros, `some s` when the
build system supplied `-DMACRO=s`, `none` when the macro was left
undefined so the `#ifndef` default in `Version.h` applies. -/
structure BuildConfig where
  czVersionDef : Option String
  gitCommitDef : Option String
  releaseVersionDef : Option String
  builderShimVersionDef : Option String
deriving DecidableEq, Repr

/-- `CZ_VERSION`: the supplied definition if any, else the `#ifndef`
default `"latest"` (Version.h lines 31–33). -/
def CZ_VERSION (cfg : BuildConfig) : String :=
  cfg.czVersionDef.getD "latest"

/-- `GIT_COMMIT`: the supplied definition if any, else the `#ifndef`
default `"unspecified"` (Version.h lines 35–37). -/
def GIT_COMMIT (cfg : BuildConfig) : String :=
  cfg.gitCommitDef.getD "unspecified"

/-- `RELEASE_VERSION`: the supplied definition if any, else the `#ifndef`
default `"0.0.0"` (Version.h lines 39–41). -/
def RELEASE_VERSION (cfg : BuildConfig) : String :=
  cfg.releaseVersionDef.getD "0.0.0"

/-- `BUILDER_SHIM_VERSION`: the supplied definition if any, else the
`#ifndef` default `"0.0.0"` (Version.h lines 43–45). -/
def BUILDER_SHIM_VERSION (cfg : BuildConfig) : String :=
  cfg.builderShimVersionDef.getD "0.0.0"

/-- Modelled from the spec: the body of `get_git_commit` is not under
`src/` (only its declaration in `Version.h` is); per the spec the accessor
returns the build-time string constant `GIT_COMMIT`. -/
def get_git_commit (cfg : BuildConfig) : String :=
  GIT_COMMIT cfg

/-- Modelled from the spec: the body of `get_release_version` is not under
`src/` (only its declaration in `Version.h` is); per the spec the accessor
returns the build-time string constant `RELEASE_VERSION`. -/
def get_release_version (cfg : BuildConfig) : String :=
  RELEASE_VERSION cfg

/-- Modelled from the spec: the body of `get_swift_containerization_version`
is not under `src/` (only its declaration in `Version.h` is); per the spec
the accessor returns the build-time string constant `CZ_VERSION`. -/
def get_swift_containerization_version (cfg : BuildConfig) : String :=
  CZ_VERSION cfg

/-- Modelled from the spec: the body of `get_container_builder_shim_version`
is not under `src/` (only its declaration in `Version.h` is); per the spec
the accessor returns the build-time string constant `BUILDER_SHIM_VERSION`. -/
def get_container_builder_shim_version (cfg : BuildConfig) : String :=
  BUILDER_SHIM_VERSION cfg

/-- The build with no `-D` override for any of the four macros. -/
def noOverrides : BuildConfig :=
  { czVersionDef := none
    gitCommitDef := none
    releaseVersionDef := none
    builderShimVersionDef := none }

/-- The state of a running process: the configuration fixed when the binary
was built.  The header introduces no other process-visible state. -/
structure ProcessState where
  config : BuildConfig
deriving DecidableEq, Repr

/-- The public interface of the unit: its four accessor functions, the only
operations `Version.h` declares. -/
inductive Accessor where
  | gitCommit
  | releaseVersion
  | swiftContainerizationVersion
  | containerBuilderShimVersion
deriving DecidableEq, Repr

/-- The string an accessor returns under a given build configuration. -/
def accessorValue : Accessor → BuildConfig → String
  | .gitCommit, cfg => get_git_commit cfg
  | .releaseVersion, cfg => get_release_version cfg
  | .swiftContainerizationVersion, cfg => get_swift_containerization_version cfg
  | .containerBuilderShimVersion, cfg => get_container_builder_shim_version cfg

/-- Calling an accessor in a process: it yields its string and the process
state after the call. -/
def callAccessor (a : Accessor) (s : ProcessState) : String × ProcessState :=
  (accessorValue a s.config, s)

/-- Running a sequence of accessor calls (any interleaving of any number of
threads' calls is such a sequence), returning the final process state. -/
def runCalls : List Accessor → ProcessState → ProcessState
  | [], s => s
  | a :: rest, s => runCalls rest (callAccessor a s).2

/-- Running a sequence of accessor calls and collecting the string each
call returned, in order. -/
def runTrace : List Accessor → ProcessState → List String
  | [], _ => []
  | a :: rest, s => (callAccessor a s).1 :: runTrace rest (callAccessor a s).2

/-- An interface operation is a mutator when some process state is changed
by calling it. -/
def interfaceMutates (a : Accessor) : Prop :=
  ∃ s : ProcessState, (callAccessor a s).2 ≠ s

/- Shared helper lemmas. -/

theorem callAccessor_snd (a : Accessor) (s : ProcessState) :
    (callAccessor a s).2 = s := rfl

theorem runCalls_eq_self (l : List Accessor) (s : ProcessState) :
    runCalls l s = s := by
  induction l with
  | nil => rfl
  | cons a rest ih => simpa [runCalls, callAccessor] using ih

theorem runTrace_eq_map (l : List Accessor) (s : ProcessState) :
    runTrace l s = l.map (fun a => accessorValue a s.config) := by
  induction l with
  | nil => rfl
  | cons a rest ih => simpa [runTrace, callAccessor] using ih

/-- C1: in a build with no build-time override for any of the four
constants, `get_git_commit` returns exactly `"unspecified"`,
`get_release_version` returns exactly `"0.0.0"`,
`get_swift_containerization_version` returns exactly `"latest"`, and
`get_container_builder_shim_version` returns exactly `"0.0.0"`. -/
theorem defaults_of_no_overrides (cfg : BuildConfig)
    (hcz : cfg.czVersionDef = none) (hgc : cfg.gitCommitDef = none)
    (hrv : cfg.releaseVersionDef = none)
    (hbs : cfg.builderShimVersionDef = none) :
    get_git_commit cfg = "unspecified" ∧
      get_release_version cfg = "0.0.0" ∧
      get_swift_containerization_version cfg = "latest" ∧
      get_container_builder_shim_version cfg = "0.0.0" := by
  refine ⟨?_, ?_, ?_, ?_⟩ <;>
    simp [get_git_commit, get_release_version,
      get_swift_containerization_version, get_container_builder_shim_version,
      GIT_COMMIT, RELEASE_VERSION, CZ_VERSION, BUILDER_SHIM_VERSION,
      hcz, hgc, hrv, hbs]

/-- Witness for C1 at the concrete no-override build. -/
theorem defaults_of_no_overrides_witness :
    get_git_commit noOverrides = "unspecified" ∧
      get_release_version noOverrides = "0.0.0" ∧
      get_swift_containerization_version noOverrides = "latest" ∧
      get_container_builder_shim_version noOverrides = "0.0.0" :=
  defaults_of_no_overrides noOverrides rfl rfl rfl rfl

/-- C2: whenever a build supplies string `s` as the override for one of
the four constants, the corresponding accessor returns exactly `s`,
unmodified. -/
theorem accessor_returns_override_exactly (cfg : BuildConfig) (s : String) :
    (cfg.gitCommitDef = some s → get_git_commit cfg = s) ∧
      (cfg.releaseVersionDef = some s → get_release_version cfg = s) ∧
      (cfg.czVersionDef = some s →
        get_swift_containerization_version cfg = s) ∧
      (cfg.builderShimVersionDef = some s →
        get_container_builder_shim_version cfg = s) := by
  refine ⟨fun h => ?_, fun h => ?_, fun h => ?_, fun h => ?_⟩ <;>
    simp [get_git_commit, get_release_version,
      get_swift_containerization_version, get_container_builder_shim_version,
      GIT_COMMIT, RELEASE_VERSION, CZ_VERSION, BUILDER_SHIM_VERSION, h]

/-- Witness for C2: with commit override `"abc123"`, `get_git_commit`
returns `"abc123"` exactly. -/
theorem accessor_returns_override_exactly_witness :
    get_git_commit
      { czVersionDef := none, gitCommitDef := some "abc123",
        releaseVersionDef := none, builderShimVersionDef := none }
      = "abc123" :=
  (accessor_returns_override_exactly
      { czVersionDef := none, gitCommitDef := some "abc123",
        releaseVersionDef := none, builderShimVersionDef := none }
      "abc123").1 rfl

/-- C3: every accessor is idempotent within a process: whatever calls are
made before each of two calls to the same accessor, both calls return the
identical string. -/
theorem accessor_idempotent (a : Accessor) (pre mid : List Accessor)
    (s : ProcessState) :
    (callAccessor a (runCalls pre s)).1 =
      (callAccessor a (runCalls (pre ++ mid) s)).1 := by
  simp [runCalls_eq_self]

/-- C4: every accessor call is total and always succeeds: in every process
state, each accessor returns a string, and there is no failure path (the
call is exactly that string paired with the unchanged state). -/
theorem accessor_total (a : Accessor) (s : ProcessState) :
    ∃ r : String, callAccessor a s = (r, s) :=
  ⟨accessorValue a s.config, rfl⟩

/-- C5: the four constants are fixed at build time and never mutated at
runtime: after any sequence of accessor calls, the process state — and
with it the value of every one of the four constants — is exactly what it
was at process start. -/
theorem constants_never_mutated (l : List Accessor) (s : ProcessState) :
    runCalls l s = s ∧
      GIT_COMMIT (runCalls l s).config = GIT_COMMIT s.config ∧
      RELEASE_VERSION (runCalls l s).config = RELEASE_VERSION s.config ∧
      CZ_VERSION (runCalls l s).config = CZ_VERSION s.config ∧
      BUILDER_SHIM_VERSION (runCalls l s).config =
        BUILDER_SHIM_VERSION s.config := by
  refine ⟨runCalls_eq_self l s, ?_, ?_, ?_, ?_⟩ <;>
    rw [runCalls_eq_self]

/-- C6: calling any accessor has no side effects: the process state is
unchanged by the call, so every other accessor — hence every other
constant and every prior result — observes exactly what it observed before
the call. -/
theorem accessor_no_side_effects (a b : Accessor) (s : ProcessState) :
    (callAccessor a s).2 = s ∧
      (callAccessor b (callAccessor a s).2).1 = (callAccessor b s).1 :=
  ⟨rfl, rfl⟩

/-- C7: accessor calls cannot race: for every interleaving of the calls of
any number of threads, each call's result is determined by the accessor
and the build configuration alone — independent of where in the
interleaving it occurs — and the process state is never changed, so no
interleaving produces a data race. -/
theorem interleavings_race_free (l : List Accessor) (s : ProcessState) :
    runTrace l s = l.map (fun a => accessorValue a s.config) ∧
      runCalls l s = s :=
  ⟨runTrace_eq_map l s, runCalls_eq_self l s⟩

/-- C8: the `#ifndef` default is used only when the macro is undefined:
whenever a build defines a macro — to any string, the empty string
included — the supplied definition is used and the default is suppressed. -/
theorem ifndef_suppressed_when_defined (cfg : BuildConfig) (s : String) :
    (cfg.czVersionDef = some s → CZ_VERSION cfg = s) ∧
      (cfg.gitCommitDef = some s → GIT_COMMIT cfg = s) ∧
      (cfg.releaseVersionDef = some s → RELEASE_VERSION cfg = s) ∧
      (cfg.builderShimVersionDef = some s →
        BUILDER_SHIM_VERSION cfg = s) := by
  refine ⟨fun h => ?_, fun h => ?_, fun h => ?_, fun h => ?_⟩ <;>
    simp [CZ_VERSION, GIT_COMMIT, RELEASE_VERSION, BUILDER_SHIM_VERSION, h]

/-- Witness for C8 at the empty-string definition of every macro: each
macro is `""`, not its default. -/
theorem ifndef_suppressed_when_defined_witness :
    CZ_VERSION
        { czVersionDef := some "", gitCommitDef := some "",
          releaseVersionDef := some "", builderShimVersionDef := some "" }
        = "" ∧
      GIT_COMMIT
        { czVersionDef := some "", gitCommitDef := some "",
          releaseVersionDef := some "", builderShimVersionDef := some "" }
        = "" ∧
      RELEASE_VERSION
        { czVersionDef := some "", gitCommitDef := some "",
          releaseVersionDef := some "", builderShimVersionDef := some "" }
        = "" ∧
      BUILDER_SHIM_VERSION
        { czVersionDef := some "", gitCommitDef := some "",
          releaseVersionDef := some "", builderShimVersionDef := some "" }
        = "" :=
  have h := ifndef_suppressed_when_defined
    { czVersionDef := some "", gitCommitDef := some "",
      releaseVersionDef := some "", builderShimVersionDef := some "" } ""
  ⟨h.1 rfl, h.2.1 rfl, h.2.2.1 rfl, h.2.2.2 rfl⟩

/-- C9: the release-version default and the builder-shim-version default
are the same string `"0.0.0"`: in every build overriding neither,
`get_release_version` and `get_container_builder_shim_version` return
equal strings. -/
theorem release_default_eq_shim_default (cfg : BuildConfig)
    (hrv : cfg.releaseVersionDef = none)
    (hbs : cfg.builderShimVersionDef = none) :
    get_release_version cfg = get_container_builder_shim_version cfg ∧
      get_release_version cfg = "0.0.0" := by
  constructor <;>
    simp [get_release_version, get_container_builder_shim_version,
      RELEASE_VERSION, BUILDER_SHIM_VERSION, hrv, hbs]

/-- Witness for C9 at the concrete no-override build. -/
theorem release_default_eq_shim_default_witness :
    get_release_version noOverrides =
        get_container_builder_shim_version noOverrides ∧
      get_release_version noOverrides = "0.0.0" :=
  release_default_eq_shim_default noOverrides rfl rfl

/-- C10: the public interface — the four accessors are its only
operations — offers the caller no operation through which a returned
version string can be modified: no accessor mutates any process state, as
befits the `const char*` return type of each declaration. -/
theorem interface_offers_no_mutation (a : Accessor) :
    ¬ interfaceMutates a := by
  intro h
  rcases h with ⟨s, hs⟩
  exact hs rfl
